import Mathlib

/-!
Shallow embedding of `src/cache.js`, a small promise-based wrapper around the
browser's IndexedDB API that caches game blobs under string keys in the
database "BalatroCacheDB" (object store "cache").

The five source functions — `openGameDB`, `loadCachedGame`, `saveGameToCache`,
`deleteCachedGame`, `listCachedVersions` — are modelled as pure functions over
an explicit database state, parameterised by the events the storage backend
delivers (open success / open error / blocked, request error, transaction
complete / error / abort).  Each operation produces the ordered trace of the
actions its callbacks perform (promise resolution, promise rejection,
`db.close()`), from which we read off the first settlement of the promise and
the order of closing versus settling.
-/

namespace BalatroCache

/-- JavaScript runtime values, as far as this module's behaviour depends on
them: stored entries may be any JS value, and `loadCachedGame` applies the
truthiness coercion `getReq.result || null`.  A genuine `Blob` object is
modelled by `blob bytes` and is always truthy, like every JS object. -/
inductive JSValue where
  | undefined
  | null
  | bool (b : Bool)
  | num (n : Int)
  | str (s : String)
  | blob (bytes : List Nat)
deriving DecidableEq, Repr

/-- JavaScript truthiness of a value. -/
def JSValue.truthy : JSValue → Bool
  | .undefined => false
  | .null => false
  | .bool b => b
  | .num n => n != 0
  | .str s => s != ""
  | .blob _ => true

/-- The JS expression `v || null` used at line 37 of `src/cache.js`:
returns `v` when `v` is truthy, otherwise `null`. -/
def jsOrNull (v : JSValue) : JSValue :=
  if v.truthy then v else JSValue.null

/-- A DOMException surfaced by IndexedDB, modelled as its message. -/
abbrev JSError := String

/-- The IndexedDB object store "cache": records sorted by key, as IndexedDB
keeps them (cursors iterate in ascending key order). -/
abbrev Store := List (String × JSValue)

/-- `IDBObjectStore.get`: the result of a get request; `undefined` when the
key is absent (absence is not an error in IndexedDB). -/
def storeGet : Store → String → JSValue
  | [], _ => .undefined
  | (k', v') :: rest, k => if k = k' then v' else storeGet rest k

/-- `IDBObjectStore.put`: insert or overwrite the record at `k`, keeping the
records sorted by key. -/
def storePut : Store → String → JSValue → Store
  | [], k, v => [(k, v)]
  | (k', v') :: rest, k, v =>
      if k = k' then (k, v) :: rest
      else if k < k' then (k, v) :: (k', v') :: rest
      else (k', v') :: storePut rest k v

/-- `IDBObjectStore.delete`: remove the record at `k`; a no-op when absent. -/
def storeDelete : Store → String → Store
  | [], _ => []
  | (k', v') :: rest, k => if k = k' then rest else (k', v') :: storeDelete rest k

/-- The keys present in the store, in the backend's (ascending) order. -/
def storeKeys (s : Store) : List String := s.map Prod.fst

/-- The keys a forward cursor visits, accumulated one per `onsuccess`
callback as in `listCachedVersions` (push `cursor.key`, `cursor.continue()`). -/
def cursorKeys : Store → List String
  | [] => []
  | (k, _) :: rest => k :: cursorKeys rest

/-- Membership test on a key list (computable, used by `nodupKeys`). -/
def memKey (k : String) : List String → Bool
  | [] => false
  | k' :: rest => if k = k' then true else memKey k rest

/-- No key occurs twice in the list. -/
def nodupKeys : List String → Bool
  | [] => true
  | k :: rest => !(memKey k rest) && nodupKeys rest

/-- Well-formedness of the backend store: IndexedDB is a key-value map, so
each key occurs in at most one record.  Every store IndexedDB materialises
satisfies this. -/
def StoreWF (s : Store) : Prop := nodupKeys (storeKeys s) = true

instance (s : Store) : Decidable (StoreWF s) :=
  inferInstanceAs (Decidable (nodupKeys (storeKeys s) = true))

/-- State of the database "BalatroCacheDB": whether the object store "cache"
has been created (i.e. the version ≥ 1 upgrade ran), and its records. -/
structure DBState where
  hasStore : Bool
  store : Store
deriving DecidableEq, Repr

/-- How a promise stands: resolved, rejected, or still pending. -/
inductive Settled (α : Type) where
  | resolved (v : α)
  | rejected (e : JSError)
  | pending
deriving DecidableEq, Repr

/-- The events the backend can deliver to an `indexedDB.open` request:
plain success, success preceded by a `blocked` event (another holder released
eventually), failure, or a `blocked` event with the blocker never releasing
(the request stays pending forever). -/
inductive OpenEvents where
  | success (blockedFirst : Bool)
  | failure (e : JSError)
  | blocked
deriving DecidableEq, Repr

/-- The diagnostic `openGameDB` prints from its `onblocked` handler. -/
def blockedMsg : String :=
  "Database open blocked, likely by another tab. Please close other tabs and try again."

/-- Outcome of `openGameDB`: how its promise settled, the database state after
the open (the `onupgradeneeded` handler creates the object store on first
open), how many `createObjectStore` calls ran, and the console output. -/
structure OpenResult where
  settled : Settled Unit
  db : DBState
  createCalls : Nat
  logs : List String
deriving DecidableEq, Repr

/-- `openGameDB` from `src/cache.js` lines 5–23: `indexedDB.open` with
`onupgradeneeded` creating the "cache" store (only runs when the store does
not exist yet, i.e. on the version-0-to-1 upgrade), `onsuccess` resolving,
`onerror` rejecting, and `onblocked` logging a diagnostic without settling. -/
def openGameDB (db : DBState) (ev : OpenEvents) : OpenResult :=
  match ev with
  | .success blockedFirst =>
      { settled := .resolved ()
        db := { hasStore := true, store := db.store }
        createCalls := if db.hasStore then 0 else 1
        logs := if blockedFirst then [blockedMsg] else [] }
  | .failure e =>
      { settled := .rejected e, db := db, createCalls := 0, logs := [] }
  | .blocked =>
      { settled := .pending, db := db, createCalls := 0, logs := [blockedMsg] }

/-- An observable action performed by one of the callbacks installed on a
request or transaction: resolving the caller's promise, rejecting it, or
calling `db.close()`. -/
inductive Ev (α : Type) where
  | resolve (v : α)
  | reject (e : JSError)
  | close
deriving DecidableEq, Repr

/-- How a promise ends up settled given the ordered trace of actions its
callbacks perform: the first `resolve` or `reject` wins (later calls on an
already-settled JS promise are no-ops). -/
def firstSettle {α : Type} : List (Ev α) → Settled α
  | [] => .pending
  | .resolve v :: _ => .resolved v
  | .reject e :: _ => .rejected e
  | .close :: rest => firstSettle rest

/-- Whether an action is a `db.close()` call. -/
def isClose {α : Type} : Ev α → Bool
  | .close => true
  | _ => false

/-- Whether `db.close()` is called at some point of the trace. -/
def everCloses {α : Type} (t : List (Ev α)) : Bool := t.any isClose

/-- Whether the first settlement of the promise (if any) happens strictly
after some `db.close()` call: true when a `close` precedes every settle
action, or when the trace never settles the promise at all. -/
def closedBeforeSettle {α : Type} : List (Ev α) → Bool
  | [] => true
  | .close :: _ => true
  | .resolve _ :: _ => false
  | .reject _ :: _ => false

/-- How the backend drives a single-request transaction, matching the events
IndexedDB can fire for the request/transaction pairs in `src/cache.js`:
- `commit`: the request succeeds, then the transaction's `complete` event;
- `requestError re te`: the request's `error` event fires (handler sees
  `request.error = re`), the error bubbles to the transaction (`onerror`,
  with `transaction.error = te`), and the transaction then aborts
  (`onabort`, same `transaction.error`);
- `txAbort te`: the transaction aborts without a request error event (e.g.
  quota failure at commit time); only `onabort` fires. -/
inductive TxBehavior where
  | commit
  | requestError (re te : JSError)
  | txAbort (te : JSError)
deriving DecidableEq, Repr

/-- The actions performed by the callbacks of `loadCachedGame`
(`src/cache.js` lines 32–44) for each backend behaviour:
`getReq.onsuccess` resolves `getReq.result || null` (this fires before the
transaction completes), `getReq.onerror` rejects, and each of the
transaction's `complete` / `error` / `abort` handlers only calls
`db.close()`. -/
def loadTrace (s : Store) (key : String) : TxBehavior → List (Ev JSValue)
  | .commit => [.resolve (jsOrNull (storeGet s key)), .close]
  | .requestError re _ => [.reject re, .close, .close]
  | .txAbort _ => [.close]

/-- The actions performed by the callbacks of `saveGameToCache`
(`src/cache.js` lines 55–77): `putReq.onerror` rejects with the request
error; `transaction.oncomplete` closes then resolves; `onerror` and
`onabort` each close then reject with `transaction.error`. -/
def saveTrace : TxBehavior → List (Ev Unit)
  | .commit => [.close, .resolve ()]
  | .requestError re te => [.reject re, .close, .reject te, .close, .reject te]
  | .txAbort te => [.close, .reject te]

/-- The actions performed by the callbacks of `deleteCachedGame`
(`src/cache.js` lines 87–106), structurally identical to the save case:
`deleteReq.onerror` rejects; `oncomplete` closes then resolves; `onerror`
and `onabort` close then reject with `transaction.error`. -/
def deleteTrace : TxBehavior → List (Ev Unit)
  | .commit => [.close, .resolve ()]
  | .requestError re te => [.reject re, .close, .reject te, .close, .reject te]
  | .txAbort te => [.close, .reject te]

/-- The actions performed by the callbacks of `listCachedVersions`
(`src/cache.js` lines 115–142): the cursor's `onsuccess` callbacks only
accumulate keys into `found_keys`; `oncomplete` closes then resolves with
the accumulated keys; `cursorReq.onerror` rejects; `onerror` / `onabort`
close then reject with `transaction.error`. -/
def listTrace (s : Store) : TxBehavior → List (Ev (List String))
  | .commit => [.close, .resolve (cursorKeys s)]
  | .requestError re te => [.reject re, .close, .reject te, .close, .reject te]
  | .txAbort te => [.close, .reject te]

/-- Outcome of one public operation: the settlement of the promise returned
to the caller, the database state afterwards, the ordered trace of
settle/close actions performed once a connection was obtained (empty if the
open itself failed or hung), and console output. -/
structure OpResult (α : Type) where
  settled : Settled α
  db : DBState
  trace : List (Ev α)
  logs : List String

/-- `loadCachedGame` from `src/cache.js` lines 30–45: await `openGameDB`
(its rejection propagates, a pending open leaves the caller pending), then
run a readonly transaction on "cache" with a single `get(key)`. -/
def loadCachedGame (db : DBState) (openEv : OpenEvents) (txb : TxBehavior)
    (key : String := "vanilla") : OpResult JSValue :=
  let o := openGameDB db openEv
  match o.settled with
  | .rejected e => { settled := .rejected e, db := o.db, trace := [], logs := o.logs }
  | .pending => { settled := .pending, db := o.db, trace := [], logs := o.logs }
  | .resolved _ =>
      let t := loadTrace o.db.store key txb
      { settled := firstSettle t, db := o.db, trace := t, logs := o.logs }

/-- `saveGameToCache` from `src/cache.js` lines 53–78: await `openGameDB`,
then run a readwrite transaction with a single `put(blob, key)`; the store
is updated exactly when the transaction commits (an aborted transaction
rolls its write back). -/
def saveGameToCache (db : DBState) (openEv : OpenEvents) (txb : TxBehavior)
    (blob : JSValue) (key : String := "vanilla") : OpResult Unit :=
  let o := openGameDB db openEv
  match o.settled with
  | .rejected e => { settled := .rejected e, db := o.db, trace := [], logs := o.logs }
  | .pending => { settled := .pending, db := o.db, trace := [], logs := o.logs }
  | .resolved _ =>
      let t := saveTrace txb
      let s' := match txb with
        | .commit => storePut o.db.store key blob
        | _ => o.db.store
      { settled := firstSettle t
        db := { hasStore := o.db.hasStore, store := s' }
        trace := t
        logs := o.logs }

/-- `deleteCachedGame` from `src/cache.js` lines 85–107: await `openGameDB`,
then run a readwrite transaction with a single `delete(key)`; the record is
removed exactly when the transaction commits. -/
def deleteCachedGame (db : DBState) (openEv : OpenEvents) (txb : TxBehavior)
    (key : String) : OpResult Unit :=
  let o := openGameDB db openEv
  match o.settled with
  | .rejected e => { settled := .rejected e, db := o.db, trace := [], logs := o.logs }
  | .pending => { settled := .pending, db := o.db, trace := [], logs := o.logs }
  | .resolved _ =>
      let t := deleteTrace txb
      let s' := match txb with
        | .commit => storeDelete o.db.store key
        | _ => o.db.store
      { settled := firstSettle t
        db := { hasStore := o.db.hasStore, store := s' }
        trace := t
        logs := o.logs }

/-- `listCachedVersions` from `src/cache.js` lines 113–143: await
`openGameDB`, then iterate a forward cursor over "cache" in a readonly
transaction, resolving with the accumulated keys on transaction
completion. -/
def listCachedVersions (db : DBState) (openEv : OpenEvents) (txb : TxBehavior) :
    OpResult (List String) :=
  let o := openGameDB db openEv
  match o.settled with
  | .rejected e => { settled := .rejected e, db := o.db, trace := [], logs := o.logs }
  | .pending => { settled := .pending, db := o.db, trace := [], logs := o.logs }
  | .resolved _ =>
      let t := listTrace o.db.store txb
      { settled := firstSettle t, db := o.db, trace := t, logs := o.logs }

/-! ### Supporting lemmas about the store model -/

theorem storeGet_storePut_self (s : Store) (k : String) (v : JSValue) :
    storeGet (storePut s k v) k = v := by
  induction s with
  | nil => simp [storePut, storeGet]
  | cons hd tl ih =>
    obtain ⟨k', v'⟩ := hd
    by_cases heq : k = k'
    · simp [storePut, heq, storeGet]
    · by_cases hlt : k < k'
      · simp [storePut, heq, hlt, storeGet]
      · simp [storePut, heq, hlt, storeGet, ih]

theorem storeGet_absent (s : Store) (k : String) (h : k ∉ storeKeys s) :
    storeGet s k = .undefined := by
  induction s with
  | nil => simp [storeGet]
  | cons hd tl ih =>
    obtain ⟨k', v'⟩ := hd
    simp [storeKeys, List.mem_cons] at h
    push_neg at h
    simp [storeGet, h.1]
    exact ih (by simpa [storeKeys] using h.2)

theorem storeDelete_absent (s : Store) (k : String) (h : k ∉ storeKeys s) :
    storeDelete s k = s := by
  induction s with
  | nil => simp [storeDelete]
  | cons hd tl ih =>
    obtain ⟨k', v'⟩ := hd
    simp [storeKeys, List.mem_cons] at h
    push_neg at h
    simp [storeDelete, h.1]
    exact ih (by simpa [storeKeys] using h.2)

theorem cursorKeys_eq_storeKeys (s : Store) : cursorKeys s = storeKeys s := by
  induction s with
  | nil => simp [cursorKeys, storeKeys]
  | cons hd tl ih =>
    obtain ⟨k, v⟩ := hd
    simp [cursorKeys, storeKeys] at ih ⊢
    exact ih

theorem memKey_false_not_mem (l : List String) (k : String)
    (h : memKey k l = false) : k ∉ l := by
  induction l with
  | nil => simp
  | cons k' rest ih =>
    by_cases heq : k = k'
    · simp [memKey, heq] at h
    · simp [memKey, heq] at h
      simp [List.mem_cons, heq]
      exact ih h

theorem nodupKeys_nodup (l : List String) (h : nodupKeys l = true) : l.Nodup := by
  induction l with
  | nil => simp
  | cons k rest ih =>
    simp [nodupKeys, Bool.and_eq_true] at h
    exact List.nodup_cons.mpr ⟨memKey_false_not_mem rest k h.1, ih h.2⟩

/-! ### Settlement inversion lemmas -/

theorem save_resolved_inv (db : DBState) (o : OpenEvents) (t : TxBehavior)
    (b : JSValue) (k : String)
    (h : (saveGameToCache db o t b k).settled = .resolved ()) :
    (saveGameToCache db o t b k).db = DBState.mk true (storePut db.store k b) := by
  cases o <;> cases t <;>
    simp_all [saveGameToCache, openGameDB, saveTrace, firstSettle]

theorem load_resolved_inv (db : DBState) (o : OpenEvents) (t : TxBehavior)
    (k : String) (v : JSValue)
    (h : (loadCachedGame db o t k).settled = .resolved v) :
    v = jsOrNull (storeGet db.store k) := by
  cases o <;> cases t <;>
    simp_all [loadCachedGame, openGameDB, loadTrace, firstSettle]

/-! ### Claim theorems -/

/-- C1: for every key `k` and every blob `b`, `save(b, k)` followed by
`load(k)` resolves with a value equal to `b`.  Formally: whenever the save's
promise resolves and the subsequent load's promise resolves with `v`, then
`v` is exactly the saved blob.  (A blob is a JS object, hence truthy, so the
`getReq.result || null` coercion at line 37 returns it unchanged.) -/
theorem save_then_load_roundtrip
    (db : DBState) (o1 o2 : OpenEvents) (t1 t2 : TxBehavior)
    (bs : List Nat) (k : String) (v : JSValue)
    (h1 : (saveGameToCache db o1 t1 (.blob bs) k).settled = .resolved ())
    (h2 : (loadCachedGame (saveGameToCache db o1 t1 (.blob bs) k).db o2 t2 k).settled
            = .resolved v) :
    v = .blob bs := by
  rw [save_resolved_inv db o1 t1 (.blob bs) k h1] at h2
  have hv := load_resolved_inv _ o2 t2 k v h2
  rw [show (DBState.mk true (storePut db.store k (.blob bs))).store
        = storePut db.store k (.blob bs) from rfl] at hv
  rw [storeGet_storePut_self] at hv
  simpa [jsOrNull, JSValue.truthy] using hv

/-- Witness for C1 at a concrete input: saving the blob `[1, 2]` under
"vanilla" into a fresh database and loading it back resolves with that
blob. -/
theorem save_then_load_roundtrip_witness :
    (saveGameToCache (DBState.mk true []) (.success false) .commit
        (.blob [1, 2]) "vanilla").settled = .resolved () ∧
    (loadCachedGame (saveGameToCache (DBState.mk true []) (.success false) .commit
        (.blob [1, 2]) "vanilla").db (.success false) .commit "vanilla").settled
      = .resolved (.blob [1, 2]) ∧
    JSValue.blob [1, 2] = .blob [1, 2] :=
  ⟨by decide, by decide,
    save_then_load_roundtrip (DBState.mk true []) (.success false) (.success false)
      .commit .commit [1, 2] "vanilla" (.blob [1, 2]) (by decide) (by decide)⟩

/-- C3: for every key `k` never saved (absent from the store), `load(k)`
resolves with the not-found sentinel `null` — it does not reject; absence is
a normal outcome, not a `ReadError`. -/
theorem load_unsaved_key_resolves_null
    (db : DBState) (bf : Bool) (k : String) (h : k ∉ storeKeys db.store) :
    (loadCachedGame db (.success bf) .commit k).settled = .resolved .null := by
  simp [loadCachedGame, openGameDB, loadTrace, firstSettle,
        storeGet_absent db.store k h, jsOrNull, JSValue.truthy]

/-- Witness for C3 at a concrete input: loading "vanilla" from a fresh empty
store resolves with `null`. -/
theorem load_unsaved_key_resolves_null_witness :
    "vanilla" ∉ storeKeys (DBState.mk true []).store ∧
    (loadCachedGame (DBState.mk true []) (.success false) .commit "vanilla").settled
      = .resolved .null :=
  ⟨by simp [storeKeys],
    load_unsaved_key_resolves_null (DBState.mk true []) false "vanilla"
      (by simp [storeKeys])⟩

/-- C4: `save(b, k)` resolves only after the full read-write transaction has
committed: if the save's promise resolved, the transaction behaviour was
`commit`, and the resolve action was performed by the transaction's
`complete` handler, after its `db.close()` — the `put` request itself has no
success handler, so a mere write-request return never resolves the
promise. -/
theorem save_resolves_only_on_commit
    (db : DBState) (o : OpenEvents) (t : TxBehavior) (b : JSValue) (k : String)
    (h : (saveGameToCache db o t b k).settled = .resolved ()) :
    t = .commit ∧ (saveGameToCache db o t b k).trace = [.close, .resolve ()] := by
  cases o <;> cases t <;>
    simp_all [saveGameToCache, openGameDB, saveTrace, firstSettle]

/-- Witness for C4 at a concrete input: a committing save of blob `[1]`
resolves, its behaviour is `commit` and its trace closes before
resolving. -/
theorem save_resolves_only_on_commit_witness :
    (saveGameToCache (DBState.mk true []) (.success false) .commit
        (.blob [1]) "vanilla").settled = .resolved () ∧
    (TxBehavior.commit = .commit ∧
      (saveGameToCache (DBState.mk true []) (.success false) .commit
        (.blob [1]) "vanilla").trace = [.close, .resolve ()]) :=
  ⟨by decide,
    save_resolves_only_on_commit (DBState.mk true []) (.success false) .commit
      (.blob [1]) "vanilla" (by decide)⟩

/-- C5: for every key `k` not present in the store, `delete(k)` resolves
successfully and leaves the store unchanged — deleting a non-existent key is
a no-op, not an error. -/
theorem delete_absent_key_noop
    (db : DBState) (bf : Bool) (k : String) (h : k ∉ storeKeys db.store) :
    (deleteCachedGame db (.success bf) .commit k).settled = .resolved () ∧
    (deleteCachedGame db (.success bf) .commit k).db.store = db.store := by
  constructor
  · simp [deleteCachedGame, openGameDB, deleteTrace, firstSettle]
  · simp [deleteCachedGame, openGameDB, deleteTrace, firstSettle,
          storeDelete_absent db.store k h]

/-- Witness for C5 at a concrete input: deleting "modded" from a store that
only holds "vanilla" resolves and leaves the store unchanged. -/
theorem delete_absent_key_noop_witness :
    "modded" ∉ storeKeys (DBState.mk true [("vanilla", .blob [7])]).store ∧
    ((deleteCachedGame (DBState.mk true [("vanilla", .blob [7])]) (.success false)
        .commit "modded").settled = .resolved () ∧
      (deleteCachedGame (DBState.mk true [("vanilla", .blob [7])]) (.success false)
        .commit "modded").db.store = (DBState.mk true [("vanilla", .blob [7])]).store) :=
  ⟨by decide,
    delete_absent_key_noop (DBState.mk true [("vanilla", .blob [7])]) false "modded"
      (by decide)⟩

/-- C7: for every key `k` and blobs `b1`, `b2`, the sequence `save(b1, k)`,
`save(b2, k)`, `load(k)` resolves with `b2` and never with `b1` (whenever
the blobs differ): a save under an existing key overwrites the prior
blob. -/
theorem save_save_load_overwrites
    (db : DBState) (o1 o2 o3 : OpenEvents) (t1 t2 t3 : TxBehavior)
    (b1 b2 : List Nat) (k : String) (v : JSValue)
    (h1 : (saveGameToCache db o1 t1 (.blob b1) k).settled = .resolved ())
    (h2 : (saveGameToCache (saveGameToCache db o1 t1 (.blob b1) k).db
            o2 t2 (.blob b2) k).settled = .resolved ())
    (h3 : (loadCachedGame (saveGameToCache (saveGameToCache db o1 t1 (.blob b1) k).db
            o2 t2 (.blob b2) k).db o3 t3 k).settled = .resolved v) :
    v = .blob b2 ∧ (b1 ≠ b2 → v ≠ .blob b1) := by
  rw [save_resolved_inv db o1 t1 (.blob b1) k h1] at h2 h3
  rw [save_resolved_inv _ o2 t2 (.blob b2) k h2] at h3
  have hv := load_resolved_inv _ o3 t3 k v h3
  rw [show (DBState.mk true (storePut (DBState.mk true (storePut db.store k (.blob b1))).store
        k (.blob b2))).store
      = storePut (storePut db.store k (.blob b1)) k (.blob b2) from rfl] at hv
  rw [storeGet_storePut_self] at hv
  simp only [jsOrNull, JSValue.truthy, if_pos] at hv
  refine ⟨hv, fun hne hc => hne ?_⟩
  rw [hv] at hc
  exact (JSValue.blob.injEq b2 b1).mp hc ▸ rfl

/-- Witness for C7 at a concrete input: saving `[1]` then `[2]` under
"vanilla" and loading resolves with `[2]`, not `[1]`. -/
theorem save_save_load_overwrites_witness :
    (saveGameToCache (DBState.mk true []) (.success false) .commit
        (.blob [1]) "vanilla").settled = .resolved () ∧
    (saveGameToCache (saveGameToCache (DBState.mk true []) (.success false) .commit
        (.blob [1]) "vanilla").db (.success false) .commit
        (.blob [2]) "vanilla").settled = .resolved () ∧
    (loadCachedGame (saveGameToCache (saveGameToCache (DBState.mk true [])
        (.success false) .commit (.blob [1]) "vanilla").db (.success false) .commit
        (.blob [2]) "vanilla").db (.success false) .commit "vanilla").settled
      = .resolved (.blob [2]) ∧
    (JSValue.blob [2] = .blob [2] ∧ (([1] : List Nat) ≠ [2] → JSValue.blob [2] ≠ .blob [1])) :=
  ⟨by decide, by decide, by decide,
    save_save_load_overwrites (DBState.mk true []) (.success false) (.success false)
      (.success false) .commit .commit .commit [1] [2] "vanilla" (.blob [2])
      (by decide) (by decide) (by decide)⟩

/-- C10 (implicit): for every key whose stored value is falsy (empty string,
`0`, `false`, `null`, `undefined`), `load(k)` resolves with `null`, the
not-found sentinel — such a stored value is indistinguishable from an absent
key through the public interface, because line 37 coerces the fetched result
with `|| null`. -/
theorem load_falsy_stored_value_null
    (db : DBState) (bf : Bool) (k : String)
    (h : (storeGet db.store k).truthy = false) :
    (loadCachedGame db (.success bf) .commit k).settled = .resolved .null := by
  simp [loadCachedGame, openGameDB, loadTrace, firstSettle, jsOrNull, h]

/-- Witness for C10 at a concrete input: a stored empty string under
"vanilla" is falsy and loads as `null`. -/
theorem load_falsy_stored_value_null_witness :
    (storeGet (DBState.mk true [("vanilla", .str "")]).store "vanilla").truthy = false ∧
    (loadCachedGame (DBState.mk true [("vanilla", .str "")]) (.success false)
        .commit "vanilla").settled = .resolved .null :=
  ⟨by decide,
    load_falsy_stored_value_null (DBState.mk true [("vanilla", .str "")]) false
      "vanilla" (by decide)⟩

/-- C2 counterexample: on `loadCachedGame`'s successful path the promise is
resolved by `getReq.onsuccess`, which fires before `transaction.oncomplete`
runs `db.close()` — so at this concrete input the promise settles (resolves
with `null`) strictly before the connection is closed, refuting the claim
that every operation closes the connection before its promise settles. -/
theorem load_settles_before_close_cex :
    (loadCachedGame (DBState.mk true []) (.success false) .commit "vanilla").settled
      = .resolved .null ∧
    everCloses (loadCachedGame (DBState.mk true []) (.success false) .commit
      "vanilla").trace = true ∧
    closedBeforeSettle (loadCachedGame (DBState.mk true []) (.success false) .commit
      "vanilla").trace = false := by
  decide

/-- C2 (amended): once a connection is opened, every terminal transaction
path of every operation closes the connection; for `save`, `delete` and
`listKeys` the settlements performed by the transaction's terminal handlers
(`complete` and `abort`) happen after the close, but settlements performed
by request callbacks — `load`'s resolve and reject, and the request-error
rejections of `save`, `delete` and `listKeys` — happen before the connection
is closed. -/
theorem connection_close_discipline
    (db : DBState) (bf : Bool) (k : String) (b : JSValue) (re te : JSError) :
    (∀ t, everCloses (loadCachedGame db (.success bf) t k).trace = true) ∧
    (∀ t, everCloses (saveGameToCache db (.success bf) t b k).trace = true) ∧
    (∀ t, everCloses (deleteCachedGame db (.success bf) t k).trace = true) ∧
    (∀ t, everCloses (listCachedVersions db (.success bf) t).trace = true) ∧
    closedBeforeSettle (saveGameToCache db (.success bf) .commit b k).trace = true ∧
    closedBeforeSettle (saveGameToCache db (.success bf) (.txAbort te) b k).trace = true ∧
    closedBeforeSettle (deleteCachedGame db (.success bf) .commit k).trace = true ∧
    closedBeforeSettle (deleteCachedGame db (.success bf) (.txAbort te) k).trace = true ∧
    closedBeforeSettle (listCachedVersions db (.success bf) .commit).trace = true ∧
    closedBeforeSettle (listCachedVersions db (.success bf) (.txAbort te)).trace = true ∧
    closedBeforeSettle (loadCachedGame db (.success bf) .commit k).trace = false ∧
    closedBeforeSettle (loadCachedGame db (.success bf) (.requestError re te) k).trace = false ∧
    closedBeforeSettle (saveGameToCache db (.success bf) (.requestError re te) b k).trace = false ∧
    closedBeforeSettle (deleteCachedGame db (.success bf) (.requestError re te) k).trace = false ∧
    closedBeforeSettle (listCachedVersions db (.success bf) (.requestError re te)).trace = false := by
  refine ⟨fun t => ?_, fun t => ?_, fun t => ?_, fun t => ?_,
    ?_, ?_, ?_, ?_, ?_, ?_, ?_, ?_, ?_, ?_, ?_⟩ <;>
  first
    | (cases t <;>
        simp [loadCachedGame, saveGameToCache, deleteCachedGame, listCachedVersions,
          openGameDB, loadTrace, saveTrace, deleteTrace, listTrace,
          everCloses, isClose, closedBeforeSettle, List.any])
    | simp [loadCachedGame, saveGameToCache, deleteCachedGame, listCachedVersions,
        openGameDB, loadTrace, saveTrace, deleteTrace, listTrace,
        everCloses, isClose, closedBeforeSettle, List.any]

/-- C6: whenever `listKeys()` resolves, the resolved sequence is exactly the
keys present in the store at scan start (in the backend's iteration order)
and is duplicate-free; being a function of the store, it is deterministic. -/
theorem listKeys_complete_nodup
    (db : DBState) (o : OpenEvents) (t : TxBehavior) (ks : List String)
    (hwf : StoreWF db.store)
    (h : (listCachedVersions db o t).settled = .resolved ks) :
    ks = storeKeys db.store ∧ ks.Nodup := by
  cases o with
  | success bf =>
    cases t with
    | commit =>
      have hks : ks = storeKeys db.store := by
        simp [listCachedVersions, openGameDB, listTrace, firstSettle,
          cursorKeys_eq_storeKeys] at h
        exact h.symm
      subst hks
      exact ⟨rfl, nodupKeys_nodup _ hwf⟩
    | requestError re te =>
      simp [listCachedVersions, openGameDB, listTrace, firstSettle] at h
    | txAbort te =>
      simp [listCachedVersions, openGameDB, listTrace, firstSettle] at h
  | failure e => simp [listCachedVersions, openGameDB] at h
  | blocked => simp [listCachedVersions, openGameDB] at h

/-- Witness for C6 at a concrete input: listing a store holding keys "a",
"b", "c" resolves with exactly `["a", "b", "c"]`, which is duplicate-free. -/
theorem listKeys_complete_nodup_witness :
    StoreWF (DBState.mk true
      [("a", .blob [1]), ("b", .blob [2]), ("c", .blob [3])]).store ∧
    (listCachedVersions (DBState.mk true
      [("a", .blob [1]), ("b", .blob [2]), ("c", .blob [3])]) (.success false)
      .commit).settled = .resolved ["a", "b", "c"] ∧
    (["a", "b", "c"] = storeKeys (DBState.mk true
      [("a", .blob [1]), ("b", .blob [2]), ("c", .blob [3])]).store ∧
      (["a", "b", "c"] : List String).Nodup) :=
  ⟨by decide, by decide,
    listKeys_complete_nodup (DBState.mk true
      [("a", .blob [1]), ("b", .blob [2]), ("c", .blob [3])]) (.success false)
      .commit ["a", "b", "c"] (by decide) (by decide)⟩

/-- C8: the store container is created at most once.  A single open performs
at most one `createObjectStore`, an open when the container already exists
performs none and changes nothing beyond handing out a connection, and any
two consecutive opens perform at most one creation in total (a successful
first open leaves `hasStore` set, and a failed or blocked one changes
nothing). -/
theorem open_creates_store_at_most_once (db : DBState) (ev ev2 : OpenEvents) :
    (openGameDB db ev).createCalls ≤ 1 ∧
    (db.hasStore = true →
      (openGameDB db ev).createCalls = 0 ∧ (openGameDB db ev).db = db) ∧
    (openGameDB db ev).createCalls
      + (openGameDB (openGameDB db ev).db ev2).createCalls ≤ 1 := by
  obtain ⟨hs, st⟩ := db
  cases ev <;> cases ev2 <;> cases hs <;> simp [openGameDB]

/-- Witness for C8 at a concrete input: opening a database whose container
already exists performs no creation and returns the state unchanged. -/
theorem open_creates_store_at_most_once_witness :
    (DBState.mk true []).hasStore = true ∧
    ((openGameDB (DBState.mk true []) (.success false)).createCalls = 0 ∧
      (openGameDB (DBState.mk true []) (.success false)).db = DBState.mk true []) :=
  ⟨rfl,
    (open_creates_store_at_most_once (DBState.mk true []) (.success false)
      (.success false)).2.1 rfl⟩

/-- C9: when the open request is blocked by another holder, `openGameDB`
logs the diagnostic and neither resolves nor rejects — the promise stays
pending; once the blocker releases (a `blocked` event followed by success),
the diagnostic has been logged and the promise resolves normally. -/
theorem open_blocked_diagnostic_then_resolve (db : DBState) :
    (openGameDB db .blocked).logs = [blockedMsg] ∧
    (openGameDB db .blocked).settled = .pending ∧
    (openGameDB db (.success true)).logs = [blockedMsg] ∧
    (openGameDB db (.success true)).settled = .resolved () := by
  simp [openGameDB]

end BalatroCache
